import Mathlib

/-!
Verification of the property-mapped relation subsystem of PyOpenWorm's
`neuron.py` (classes `Neuron`, `NeuronProxy`, `Neighbor`, `ConnectionProperty`).

The backing Relation Store, the `Connection` class and the abstract `Property`
base live outside the sources under verification; they are modelled from the
specification (§3, §4.1, §6, §9) as a list of facts with pattern matching.
Contexts are opaque tokens (`Nat` here); an uncontextualized query carries no
context and matches facts in every context (the spec's "no scope" sentinel,
§9).
-/

/-- A context is an opaque scoping token (spec §3). -/
abbrev Ctx := Nat

/-- Modelled from the spec: a `Connection` instance (PyOpenWorm.connection,
not under src/) is a directed relation object with a pre endpoint, a post
endpoint, a kind discriminator `syntype`, and the context it was created in.
Fields left unbound (query patterns, staged relations) are `none`. -/
structure Connection where
  pre_cell : Option String
  post_cell : Option String
  syntype : Option String
  ctx : Option Ctx
deriving DecidableEq

/-- A bound query field matches a stored field exactly; an unbound one
matches everything. -/
def bindMatch (q v : Option String) : Bool :=
  match q with
  | none => true
  | some x => v == some x

/-- Modelled from the spec (§9): a query with no context ("no scope"
sentinel) matches facts in every context; a contextualized query matches
only facts persisted in that context. -/
def ctxMatch (qc sc : Option Ctx) : Bool :=
  match qc with
  | none => true
  | some c => sc == some c

/-- Whether a stored fact matches a query pattern on every bound field. -/
def queryMatches (q s : Connection) : Bool :=
  bindMatch q.pre_cell s.pre_cell && bindMatch q.post_cell s.post_cell &&
    bindMatch q.syntype s.syntype && ctxMatch q.ctx s.ctx

/-- Modelled from the spec (§6): `q.load()` streams the store's facts that
match the query pattern `q`, in the store's result order. -/
def Connection.load (store : List Connection) (q : Connection) : List Connection :=
  store.filter (fun s => queryMatches q s)

/-- Modelled from the spec: `c.post_cell.get()` on a staged relation yields
the post endpoints the relation resolves to (at most one here). -/
def Connection.post_cell_get (c : Connection) : List String :=
  c.post_cell.toList

/-- Modelled from the spec: `r.post_cell()` on a loaded relation yields its
post endpoint value. -/
def Connection.post_cell_call (c : Connection) : List String :=
  c.post_cell.toList

/-- Modelled from the spec: `c.syntype.one()` returns the relation's kind
discriminator value, if any. -/
def Connection.syntypeOne (c : Connection) : Option String :=
  c.syntype

/-- Modelled from the spec (§4.1): `Connection.triples` (connection.py, not
under src/) yields the (subject, relation, object) facts of one relation
object; the kwargs filter is passed through unused here. -/
def Connection.facts (c : Connection) (_kw : Option String) :
    List (String × String × String) :=
  c.pre_cell.toList.map (fun x => ("connection", "pre_cell", x)) ++
    c.post_cell.toList.map (fun x => ("connection", "post_cell", x)) ++
    c.syntype.toList.map (fun x => ("connection", "syntype", x))

/-- The `Neighbor` property (neuron.py lines 160-204): `owner` is the owning
entity's name, `ownerCtx` the context captured by
`Connection.contextualize(self.owner.context)` at construction, `ctx` the
property's own attached context, `conns` the `_conns` cache of staged
relations. -/
structure Neighbor where
  owner : String
  ownerCtx : Option Ctx
  ctx : Option Ctx
  conns : List Connection
deriving DecidableEq

/-- The query built by `Neighbor.get`'s store branch (line 184):
`self._conntype.contextualize(self.context)(pre_cell=self.owner, **kwargs)`,
with the kwargs modelled as an optional syntype filter. -/
def Neighbor.query (p : Neighbor) (kw : Option String) : Connection :=
  ⟨some p.owner, none, kw, p.ctx⟩

/-- `Neighbor.get` (lines 168-186): if the `_conns` cache is non-empty,
yield the post endpoints of the cached relations; otherwise query the store
with pre-endpoint = owner and yield each returned relation's post endpoint. -/
def Neighbor.get (store : List Connection) (p : Neighbor) (kw : Option String) :
    List String :=
  if 0 < p.conns.length then
    p.conns.flatMap Connection.post_cell_get
  else
    (Connection.load store (Neighbor.query p kw)).flatMap Connection.post_cell_call

/-- `Neighbor.set` (lines 196-199): build
`self._conntype(pre_cell=self.owner, post_cell=other, **kwargs)` (the
conntype was contextualized to the owner's context at construction), append
it to the cache and return it. -/
def Neighbor.set (p : Neighbor) (other : String) (kw : Option String) :
    Connection × Neighbor :=
  let c : Connection := ⟨some p.owner, some other, kw, p.ownerCtx⟩
  (c, ⟨p.owner, p.ownerCtx, p.ctx, p.conns ++ [c]⟩)

/-- `Neighbor.triples` (lines 201-204): yield the facts of each cached
relation; the store is never consulted. -/
def Neighbor.triples (p : Neighbor) (kw : Option String) :
    List (String × String × String) :=
  p.conns.flatMap (fun c => Connection.facts c kw)

/-- Modelled from the spec (§4.4): `Property.contextualize` (pProperty, not
under src/) rebinds the property to the given context, leaving the original
untouched. -/
def Neighbor.contextualize (p : Neighbor) (c : Ctx) : Neighbor :=
  ⟨p.owner, p.ownerCtx, some c, p.conns⟩

/-- The `ConnectionProperty` (neuron.py lines 207-284): `owner` the owning
entity's name, `ctx` the property's attached context, `conns` the `_conns`
cache. Its `_conntype` is the raw, uncontextualized `Connection` class
(line 221). -/
structure ConnectionProperty where
  owner : String
  ctx : Option Ctx
  conns : List Connection
deriving DecidableEq

/-- The sub-queries built by `ConnectionProperty.get` (lines 235-242):
instances of the raw `self._conntype` (no contextualization), so they carry
no context; an unrecognized direction builds no query at all. -/
def ConnectionProperty.getQueries (p : ConnectionProperty) (dir : String)
    (kw : Option String) : List Connection :=
  if dir == "pre" then [⟨some p.owner, none, kw, none⟩]
  else if dir == "post" then [⟨none, some p.owner, kw, none⟩]
  else if dir == "either" then
    [⟨some p.owner, none, kw, none⟩, ⟨none, some p.owner, kw, none⟩]
  else []

/-- `ConnectionProperty.get` (lines 223-245): load each built sub-query
against the store and yield the results in order. -/
def ConnectionProperty.get (store : List Connection) (p : ConnectionProperty)
    (dir : String) (kw : Option String) : List Connection :=
  (ConnectionProperty.getQueries p dir kw).flatMap (Connection.load store)

/-- The sub-queries built by `ConnectionProperty.count` (lines 252-260):
instances of `self._conntype.contextualize(self.context)`, so they carry the
property's context. The explicit `syntype` parameter of `count` is captured
by the signature and never forwarded into the query, so no syntype filter
appears here. -/
def ConnectionProperty.countQueries (p : ConnectionProperty) (dir : String) :
    List Connection :=
  if dir == "pre" then [⟨some p.owner, none, none, p.ctx⟩]
  else if dir == "post" then [⟨none, some p.owner, none, p.ctx⟩]
  else if dir == "either" then
    [⟨some p.owner, none, none, p.ctx⟩, ⟨none, some p.owner, none, p.ctx⟩]
  else []

/-- `ConnectionProperty.count` (lines 251-264): sum the lengths of each
sub-query's result. The `syn` argument models the swallowed `syntype`
parameter, which the code accepts but never uses. -/
def ConnectionProperty.count (store : List Connection) (p : ConnectionProperty)
    (dir : String) (_syn : Option String) : Nat :=
  ((ConnectionProperty.countQueries p dir).map
    (fun q => (Connection.load store q).length)).sum

/-- A value passed to `ConnectionProperty.set`: either a `Connection`
instance or some other object (isinstance fails on the latter). -/
inductive PVal where
  | conn (c : Connection)
  | cell (name : String)
deriving DecidableEq

/-- `ConnectionProperty.set` (lines 266-279): assert the argument is a
`Connection` instance, append it to the cache; there is no return statement,
so the call returns Python's `None` (modelled as the `none` first
component). -/
def ConnectionProperty.set (p : ConnectionProperty) (v : PVal) :
    Except String (Option Connection × ConnectionProperty) :=
  match v with
  | PVal.conn c => Except.ok (none, ⟨p.owner, p.ctx, p.conns ++ [c]⟩)
  | PVal.cell _ => Except.error "AssertionError"

/-- `ConnectionProperty.triples` (lines 281-284): yield the facts of each
cached relation; the store is never consulted. -/
def ConnectionProperty.triples (p : ConnectionProperty) (kw : Option String) :
    List (String × String × String) :=
  p.conns.flatMap (fun c => Connection.facts c kw)

/-- Modelled from the spec (§4.4): `Property.contextualize` for the
relation-query property. -/
def ConnectionProperty.contextualize (p : ConnectionProperty) (c : Ctx) :
    ConnectionProperty :=
  ⟨p.owner, some c, p.conns⟩

/-- The `Neuron` entity: its name, its own context, and its `neighbor` and
`connection` properties, present iff the constructor ran (both are created
together in `Neuron.__init__`, lines 91-93). -/
structure Neuron where
  name : String
  ctx : Option Ctx
  props : Option (Neighbor × ConnectionProperty)
deriving DecidableEq

/-- `NeuronProxy` (lines 11-24): wraps a contextualized entity together with
context-bound neighbor and connection properties. -/
structure NeuronProxy where
  neighbor : Neighbor
  connection : ConnectionProperty
  wrapped : Neuron
deriving DecidableEq

/-- The result of `Neuron.contextualize`: either the plain base
contextualization or a `NeuronProxy`. -/
inductive CtxView where
  | plain (n : Neuron)
  | proxy (p : NeuronProxy)
deriving DecidableEq

/-- Modelled from the spec (§4.4, §6): `Cell.contextualize` (the base-entity
contextualization, not under src/) returns a fresh view of the entity bound
to the given context. -/
def Neuron.baseContextualize (n : Neuron) (c : Ctx) : Neuron :=
  ⟨n.name, some c, n.props⟩

/-- `Neuron.contextualize` (lines 104-110): base-contextualize, then, when
the neighbor property exists, wrap the result in a `NeuronProxy` holding the
re-contextualized neighbor and connection properties. The second component
is the state of the original entity after the call (the code never writes to
`self`). -/
def Neuron.contextualize (n : Neuron) (c : Ctx) : CtxView × Neuron :=
  let res := Neuron.baseContextualize n c
  match n.props with
  | some (nb, cp) =>
      (CtxView.proxy ⟨Neighbor.contextualize nb c,
                      ConnectionProperty.contextualize cp c, res⟩, n)
  | none => (CtxView.plain res, n)

/-- Modelled from the spec (§4.1, §9): `Property.__call__` (pProperty, not
under src/) with no arguments forwards to `get` with no arguments, so the
direction argument takes `ConnectionProperty.get`'s declared default
`'pre'` (line 223). -/
def propertyCall (store : List Connection) (p : ConnectionProperty) :
    List Connection :=
  ConnectionProperty.get store p "pre" none

/-- `Neuron.GJ_degree` (lines 112-122): iterate `self.connection()` and
count the relations whose `syntype.one()` equals `'gapJunction'`. -/
def Neuron.GJ_degree (store : List Connection) (connection : ConnectionProperty) :
    Nat :=
  (propertyCall store connection).countP
    (fun c => Connection.syntypeOne c == some "gapJunction")

/-- `Neuron.Syn_degree` (lines 124-134): iterate
`self.connection.get('either')` and count the relations whose
`syntype.one()` equals `'send'`. -/
def Neuron.Syn_degree (store : List Connection) (connection : ConnectionProperty) :
    Nat :=
  (ConnectionProperty.get store connection "either" none).countP
    (fun c => Connection.syntypeOne c == some "send")

/-! Concrete fixtures used by counterexamples and witnesses. -/

/-- An uncontextualized connection property owned by `AVAL` with empty cache. -/
def cpAVAL : ConnectionProperty := ⟨"AVAL", none, []⟩

/-- An uncontextualized neighbor property owned by `AVAL` with empty cache. -/
def nbrAVAL : Neighbor := ⟨"AVAL", none, none, []⟩

/-- A store holding one persisted relation with pre-endpoint `AVAL`. -/
def storePre1 : List Connection := [⟨some "AVAL", some "AVBL", some "send", none⟩]

/-- A store holding one incoming gap junction (post-endpoint `AVAL`). -/
def gjStoreIn : List Connection := [⟨some "ADAL", some "AVAL", some "gapJunction", none⟩]

/-- A store holding one outgoing and one incoming chemical synapse of `AVAL`. -/
def synStore : List Connection :=
  [⟨some "AVAL", some "PVCL", some "send", none⟩,
   ⟨some "ADAL", some "AVAL", some "send", none⟩]

/-- A connection property attached to context `0`. -/
def cpCtx0 : ConnectionProperty := ⟨"AVAL", some 0, []⟩

/-- A store holding one relation of `AVAL` persisted in context `1`. -/
def storeCtx1 : List Connection := [⟨some "AVAL", some "AVBL", some "send", some 1⟩]

/-- A `Connection` instance from `AVAL` to `AVBL`. -/
def connAB : Connection := ⟨some "AVAL", some "AVBL", some "send", none⟩

/-- A neuron whose constructor has run: both properties present. -/
def neuronAVAL : Neuron := ⟨"AVAL", none, some (nbrAVAL, cpAVAL)⟩

/-- Every loaded result list is a sublist of the store, hence preserves the
store's result order. -/
theorem load_sublist (store : List Connection) (q : Connection) :
    List.Sublist (Connection.load store q) store :=
  List.filter_sublist store

/-- C1: a `set(X)` followed by `get()` on a Neighbor property yields exactly
the post endpoints of the cached ephemeral relations — `[X]` when the cache
was empty before the `set` — for every store, so no store query and no merge
with persisted neighbors occurs; with an empty cache, `get` instead loads
the store query with pre-endpoint = owner (scoped to the property's context)
and yields each returned relation's post endpoint. -/
theorem neighbor_set_then_get (store : List Connection) (p : Neighbor)
    (X : String) (kw kw2 : Option String) :
    Neighbor.get store (Neighbor.set p X kw).2 kw2 =
      p.conns.flatMap Connection.post_cell_get ++ [X]
    ∧ (p.conns = [] → Neighbor.get store (Neighbor.set p X kw).2 kw2 = [X])
    ∧ (p.conns = [] →
        Neighbor.get store p kw2 =
          (Connection.load store (Neighbor.query p kw2)).flatMap
            Connection.post_cell_call) := by
  refine ⟨?_, ?_, ?_⟩
  · simp [Neighbor.set, Neighbor.get, Connection.post_cell_get]
  · intro h
    simp [Neighbor.set, Neighbor.get, h, Connection.post_cell_get]
  · intro h
    simp [Neighbor.get, h]

/-- Witness for C1 at a concrete input: after a single `set` on an empty
cache, `get` yields exactly the staged post endpoint even against a store
holding a different persisted neighbor. -/
theorem neighbor_set_then_get_witness :
    nbrAVAL.conns = []
    ∧ Neighbor.get storePre1 (Neighbor.set nbrAVAL "PVCL" none).2 none = ["PVCL"] :=
  ⟨rfl, (neighbor_set_then_get storePre1 nbrAVAL "PVCL" none none).2.1 rfl⟩

/-- C2 (code bug): on a store whose only fact is an incoming gap junction of
the owner, `GJ_degree` returns 0 because `self.connection()` forwards to
`get()` with the default direction `'pre'`, while the direction-`'either'`
iteration demanded by the claim (and by `GJ_degree`'s own docstring,
"incoming and outgoing") counts it; `Syn_degree` does iterate with
`'either'` and counts the `'send'` relations in both directions. -/
theorem gj_degree_misses_incoming :
    Neuron.GJ_degree gjStoreIn cpAVAL = 0
    ∧ (ConnectionProperty.get gjStoreIn cpAVAL "either" none).countP
        (fun c => Connection.syntypeOne c == some "gapJunction") = 1
    ∧ Neuron.Syn_degree synStore cpAVAL = 2
    ∧ Neuron.GJ_degree synStore cpAVAL = 0 := by
  refine ⟨rfl, rfl, rfl, rfl⟩

/-- C3 counterexample: on a store holding one persisted pre-relation of the
owner, `get` and `count` with the unrecognized direction `'bogus'` yield the
empty sequence and 0, while `get('pre')` and `count('pre')` see the
relation — so an unrecognized direction is not treated as `'pre'`. -/
theorem unknown_direction_not_pre :
    ConnectionProperty.get storePre1 cpAVAL "bogus" none = []
    ∧ ConnectionProperty.get storePre1 cpAVAL "pre" none = storePre1
    ∧ ConnectionProperty.count storePre1 cpAVAL "bogus" none = 0
    ∧ ConnectionProperty.count storePre1 cpAVAL "pre" none = 1 := by
  refine ⟨rfl, rfl, rfl, rfl⟩

/-- C3 amended: for every direction outside `{'pre', 'post', 'either'}`,
`get` builds no sub-query and yields the empty sequence, and `count`
likewise returns 0 — a silent degrade to emptiness, not to `'pre'`. -/
theorem unknown_direction_yields_empty (store : List Connection)
    (p : ConnectionProperty) (dir : String) (kw syn : Option String)
    (h1 : dir ≠ "pre") (h2 : dir ≠ "post") (h3 : dir ≠ "either") :
    ConnectionProperty.get store p dir kw = []
    ∧ ConnectionProperty.count store p dir syn = 0 := by
  have e1 : (dir == "pre") = false := beq_eq_false_iff_ne.mpr h1
  have e2 : (dir == "post") = false := beq_eq_false_iff_ne.mpr h2
  have e3 : (dir == "either") = false := beq_eq_false_iff_ne.mpr h3
  constructor
  · simp [ConnectionProperty.get, ConnectionProperty.getQueries, e1, e2, e3]
  · simp [ConnectionProperty.count, ConnectionProperty.countQueries, e1, e2, e3]

/-- Witness for C3's amended theorem at the concrete direction `'bogus'`. -/
theorem unknown_direction_yields_empty_witness :
    ("bogus" ≠ "pre" ∧ "bogus" ≠ "post" ∧ "bogus" ≠ "either")
    ∧ ConnectionProperty.get storePre1 cpAVAL "bogus" none = []
    ∧ ConnectionProperty.count storePre1 cpAVAL "bogus" none = 0 :=
  ⟨⟨by decide, by decide, by decide⟩,
   unknown_direction_yields_empty storePre1 cpAVAL "bogus" none none
     (by decide) (by decide) (by decide)⟩

/-- C4: for every store, property and fixed filter arguments,
`count('either')` equals `count('pre') + count('post')`; there is no
deduplication, so a self-loop relation (owner as both endpoints) is counted
twice by `count('either')`. -/
theorem count_either_eq_pre_add_post (store : List Connection)
    (p : ConnectionProperty) (syn : Option String) :
    ConnectionProperty.count store p "either" syn =
      ConnectionProperty.count store p "pre" syn
        + ConnectionProperty.count store p "post" syn
    ∧ ConnectionProperty.count
        [⟨some "AVAL", some "AVAL", some "gapJunction", none⟩] cpAVAL
        "either" none = 2 := by
  constructor
  · simp [ConnectionProperty.count, ConnectionProperty.countQueries]
  · rfl

/-- C5 counterexample: for a property attached to context 0 and a store
whose only fact is persisted in context 1, `get`'s sub-query carries no
context (the raw relation type is never contextualized, line 237), so `get`
returns the foreign-context fact, while `count`'s contextualized sub-query
returns nothing — so not every sub-query of `get` is scoped to the
property's context. -/
theorem get_query_not_contextualized :
    (ConnectionProperty.getQueries cpCtx0 "pre" none).all
      (fun q => q.ctx == cpCtx0.ctx) = false
    ∧ ConnectionProperty.get storeCtx1 cpCtx0 "pre" none = storeCtx1
    ∧ ConnectionProperty.count storeCtx1 cpCtx0 "pre" none = 0 := by
  refine ⟨rfl, rfl, rfl⟩

/-- C5 amended: only `count` contextualizes the relation type with the
property's context before building its sub-queries; `get` builds its
sub-queries from the raw relation type, so they carry no context at all and
match facts from every context. -/
theorem count_contextualized_get_not (p : ConnectionProperty) (dir : String)
    (kw : Option String) :
    (ConnectionProperty.countQueries p dir).all (fun q => q.ctx == p.ctx) = true
    ∧ (ConnectionProperty.getQueries p dir kw).all (fun q => q.ctx == none) = true := by
  constructor
  · unfold ConnectionProperty.countQueries
    split_ifs <;> simp
  · unfold ConnectionProperty.getQueries
    split_ifs <;> simp

/-- C6: `Neuron.contextualize` leaves the original entity (and so its
properties, with their context and cache state) unchanged; when the
neighbor/connection properties exist it returns a fresh `NeuronProxy` whose
properties are rebound to the given context with their caches intact; when
they do not exist it returns only the base contextualization, with no proxy. -/
theorem neuron_contextualize_fresh (n : Neuron) (c : Ctx) :
    (Neuron.contextualize n c).2 = n
    ∧ (∀ nb cp, n.props = some (nb, cp) →
        (Neuron.contextualize n c).1 =
          CtxView.proxy ⟨Neighbor.contextualize nb c,
                         ConnectionProperty.contextualize cp c,
                         Neuron.baseContextualize n c⟩
        ∧ (Neighbor.contextualize nb c).ctx = some c
        ∧ (ConnectionProperty.contextualize cp c).ctx = some c
        ∧ (Neighbor.contextualize nb c).conns = nb.conns
        ∧ (ConnectionProperty.contextualize cp c).conns = cp.conns)
    ∧ (n.props = none →
        (Neuron.contextualize n c).1 = CtxView.plain (Neuron.baseContextualize n c)) := by
  refine ⟨?_, ?_, ?_⟩
  · unfold Neuron.contextualize
    match h : n.props with
    | some (nb, cp) => simp
    | none => simp
  · intro nb cp h
    refine ⟨?_, rfl, rfl, rfl, rfl⟩
    unfold Neuron.contextualize
    simp [h]
  · intro h
    unfold Neuron.contextualize
    simp [h]

/-- Witness for C6 at a concrete neuron with both properties present:
contextualizing to context 5 yields the proxy and leaves the original
untouched. -/
theorem neuron_contextualize_fresh_witness :
    (Neuron.contextualize neuronAVAL 5).2 = neuronAVAL
    ∧ (Neuron.contextualize neuronAVAL 5).1 =
        CtxView.proxy ⟨Neighbor.contextualize nbrAVAL 5,
                       ConnectionProperty.contextualize cpAVAL 5,
                       Neuron.baseContextualize neuronAVAL 5⟩ :=
  ⟨(neuron_contextualize_fresh neuronAVAL 5).1,
   (((neuron_contextualize_fresh neuronAVAL 5).2.1 nbrAVAL cpAVAL rfl)).1⟩

/-- C7: `triples` on both properties draws solely from the local cache of
staged relations — it equals the concatenation of the cached relations'
facts, takes no store argument at all (the source never consults the store),
and yields the empty sequence whenever the cache is empty. -/
theorem triples_cache_only (p : Neighbor) (q : ConnectionProperty)
    (kw : Option String) :
    Neighbor.triples p kw = p.conns.flatMap (fun c => Connection.facts c kw)
    ∧ ConnectionProperty.triples q kw =
        q.conns.flatMap (fun c => Connection.facts c kw)
    ∧ (p.conns = [] → Neighbor.triples p kw = [])
    ∧ (q.conns = [] → ConnectionProperty.triples q kw = []) := by
  refine ⟨rfl, rfl, ?_, ?_⟩
  · intro h
    simp [Neighbor.triples, h]
  · intro h
    simp [ConnectionProperty.triples, h]

/-- Witness for C7 at concrete empty-cache properties against a non-empty
store: both `triples` calls yield the empty sequence. -/
theorem triples_cache_only_witness :
    (nbrAVAL.conns = [] ∧ cpAVAL.conns = [])
    ∧ Neighbor.triples nbrAVAL none = []
    ∧ ConnectionProperty.triples cpAVAL none = [] :=
  ⟨⟨rfl, rfl⟩, (triples_cache_only nbrAVAL cpAVAL none).2.2.1 rfl,
   (triples_cache_only nbrAVAL cpAVAL none).2.2.2 rfl⟩

/-- C8: within one `get('either')` call, the result is exactly the
pre-direction sub-query's results followed by the post-direction sub-query's
results, and each sub-query's results are a sublist of the store (hence in
the store's result order). -/
theorem get_either_order (store : List Connection) (p : ConnectionProperty)
    (kw : Option String) :
    ConnectionProperty.get store p "either" kw =
      ConnectionProperty.get store p "pre" kw
        ++ ConnectionProperty.get store p "post" kw
    ∧ List.Sublist (ConnectionProperty.get store p "pre" kw) store
    ∧ List.Sublist (ConnectionProperty.get store p "post" kw) store := by
  refine ⟨?_, ?_, ?_⟩
  · simp [ConnectionProperty.get, ConnectionProperty.getQueries]
  · simp only [ConnectionProperty.get, ConnectionProperty.getQueries]
    simp [load_sublist]
  · simp only [ConnectionProperty.get, ConnectionProperty.getQueries]
    simp [load_sublist]

/-- C9 (code bug): `set` on the relation-query property fails fast with an
assertion error when given a non-`Connection` value; given a `Connection`
it appends it to the cache with no store write — but the method has no
return statement, so it returns `None` rather than the created relation its
own docstring and the abstract `Property` contract promise. -/
theorem connection_set_returns_none :
    ConnectionProperty.set cpAVAL (PVal.cell "AVBL") =
      Except.error "AssertionError"
    ∧ ConnectionProperty.set cpAVAL (PVal.conn connAB) =
        Except.ok (none, ⟨"AVAL", none, [connAB]⟩)
    ∧ (ConnectionProperty.set cpAVAL (PVal.conn connAB) ≠
        Except.ok (some connAB, ⟨"AVAL", none, [connAB]⟩)) := by
  refine ⟨rfl, rfl, ?_⟩
  intro hEq
  simp [ConnectionProperty.set] at hEq

/-- C10: relations registered via `set` are invisible to `get` and `count`:
after any successful `set`, both return exactly what they returned before,
and more generally their results do not depend on the `_conns` cache at
all — the cache is observable only through `triples`. -/
theorem set_invisible_to_get_count (store : List Connection)
    (p p1 : ConnectionProperty) (v : PVal) (r : Option Connection)
    (dir : String) (kw syn : Option String)
    (h : ConnectionProperty.set p v = Except.ok (r, p1)) :
    ConnectionProperty.get store p1 dir kw = ConnectionProperty.get store p dir kw
    ∧ ConnectionProperty.count store p1 dir syn =
        ConnectionProperty.count store p dir syn
    ∧ (∀ cs : List Connection,
        ConnectionProperty.get store ⟨p.owner, p.ctx, cs⟩ dir kw =
          ConnectionProperty.get store p dir kw
        ∧ ConnectionProperty.count store ⟨p.owner, p.ctx, cs⟩ dir syn =
            ConnectionProperty.count store p dir syn) := by
  have hget : ∀ cs : List Connection,
      ConnectionProperty.get store ⟨p.owner, p.ctx, cs⟩ dir kw =
        ConnectionProperty.get store p dir kw := by
    intro cs
    simp [ConnectionProperty.get, ConnectionProperty.getQueries]
  have hcount : ∀ cs : List Connection,
      ConnectionProperty.count store ⟨p.owner, p.ctx, cs⟩ dir syn =
        ConnectionProperty.count store p dir syn := by
    intro cs
    simp [ConnectionProperty.count, ConnectionProperty.countQueries]
  match v with
  | PVal.conn c =>
      simp only [ConnectionProperty.set, Except.ok.injEq, Prod.mk.injEq] at h
      have hp1 : p1 = ⟨p.owner, p.ctx, p.conns ++ [c]⟩ := h.2.symm
      subst hp1
      exact ⟨hget _, hcount _, fun cs => ⟨hget cs, hcount cs⟩⟩
  | PVal.cell s =>
      simp [ConnectionProperty.set] at h

/-- Witness for C10 at a concrete `set`: registering `connAB` on the empty
`AVAL` property leaves `get('pre')` and `count('pre')` over `storePre1`
unchanged. -/
theorem set_invisible_to_get_count_witness :
    ConnectionProperty.set cpAVAL (PVal.conn connAB) =
      Except.ok (none, ⟨"AVAL", none, [connAB]⟩)
    ∧ ConnectionProperty.get storePre1 ⟨"AVAL", none, [connAB]⟩ "pre" none =
        ConnectionProperty.get storePre1 cpAVAL "pre" none
    ∧ ConnectionProperty.count storePre1 ⟨"AVAL", none, [connAB]⟩ "pre" none =
        ConnectionProperty.count storePre1 cpAVAL "pre" none :=
  ⟨rfl,
   (set_invisible_to_get_count storePre1 cpAVAL ⟨"AVAL", none, [connAB]⟩
      (PVal.conn connAB) none "pre" none none rfl).1,
   (set_invisible_to_get_count storePre1 cpAVAL ⟨"AVAL", none, [connAB]⟩
      (PVal.conn connAB) none "pre" none none rfl).2.1⟩
